import Mathlib

/-!
Verification of the notification/templating core of the sitrixx backend
(request handlers under `api/`): phone normalization, SMS template
rendering, review routing, missed-call handling, the review-request
counter update, and the voice-webhook degradation path.

Strings are modelled as Lean `String` (lists of characters); the
JavaScript string operations used by the source (`trim`,
`replace(/\D/g,'')`, `startsWith`, single `replace` with a string
pattern = first occurrence, `replace` with a `/…/g` regex on a literal
pattern = all occurrences, `||` on strings with `""` falsy) are given
executable definitions below.
-/

namespace Sitrixx

/-- JavaScript `WhiteSpace ∪ LineTerminator` character class, used by
`String.prototype.trim`. -/
def isJsWs (c : Char) : Bool :=
  let n := c.toNat
  n = 9 || n = 10 || n = 11 || n = 12 || n = 13 || n = 32 ||
  n = 0xA0 || n = 0x1680 || (0x2000 ≤ n && n ≤ 0x200A) ||
  n = 0x2028 || n = 0x2029 || n = 0x202F || n = 0x205F ||
  n = 0x3000 || n = 0xFEFF

/-- JavaScript `\d` (the digits `0`–`9`), as matched by `replace(/\D/g, '')`. -/
def isDigitChar (c : Char) : Bool :=
  48 ≤ c.toNat && c.toNat ≤ 57

/-- Remove trailing JS whitespace. -/
def trimEndL (l : List Char) : List Char :=
  (l.reverse.dropWhile isJsWs).reverse

/-- JavaScript `String.prototype.trim`: drop leading and trailing whitespace. -/
def jsTrimL (l : List Char) : List Char :=
  trimEndL (l.dropWhile isJsWs)

def jsTrim (s : String) : String := ⟨jsTrimL s.data⟩

/-- `trimmed.replace(/\D/g, '')`: keep only the digit characters. -/
def digitsOfL (l : List Char) : List Char := l.filter isDigitChar

def digitsOf (s : String) : String := ⟨digitsOfL s.data⟩

/-- `normalizePhone` from `api/review-request.ts` (the same function appears
verbatim in the customers handler), on character lists. -/
def normalizePhoneL (raw : List Char) : List Char :=
  if raw = [] then raw
  else
    let trimmed := jsTrimL raw
    if trimmed.head? = some '+' then trimmed
    else
      let digits := digitsOfL trimmed
      if digits.length = 10 then '+' :: '1' :: digits
      else if digits.length = 11 ∧ digits.head? = some '1' then '+' :: digits
      else trimmed

/-- `normalizePhone` from `api/review-request.ts`: normalize a raw phone
string to E.164 for North America (default `+1`). -/
def normalizePhone (s : String) : String := ⟨normalizePhoneL s.data⟩

/-! ### Trim lemmas -/

theorem dropWhile_dropWhile (p : Char → Bool) (l : List Char) :
    (l.dropWhile p).dropWhile p = l.dropWhile p := by
  induction l with
  | nil => rfl
  | cons c cs ih =>
    by_cases h : p c
    · rw [List.dropWhile_cons, if_pos h, ih]
    · rw [List.dropWhile_cons, if_neg h, List.dropWhile_cons, if_neg h]

theorem dropWhile_head_false {p : Char → Bool} {l : List Char} {c : Char}
    (h : (l.dropWhile p).head? = some c) : p c = false := by
  induction l with
  | nil => simp [List.dropWhile] at h
  | cons a as ih =>
    by_cases ha : p a
    · rw [List.dropWhile_cons, if_pos ha] at h
      exact ih h
    · rw [List.dropWhile_cons, if_neg ha] at h
      have hac : a = c := by simpa using h
      subst hac
      simpa using ha

theorem dropWhile_eq_self_of_head {p : Char → Bool} {l : List Char} {c : Char}
    (hh : l.head? = some c) (hc : p c = false) : l.dropWhile p = l := by
  cases l with
  | nil => rfl
  | cons a as =>
    have hac : a = c := by simpa using hh
    subst hac
    rw [List.dropWhile_cons, if_neg (by simp [hc])]

theorem trimEndL_trimEndL (l : List Char) : trimEndL (trimEndL l) = trimEndL l := by
  simp [trimEndL, dropWhile_dropWhile]

theorem trimEndL_eq_self_of_getLast {l : List Char} {c : Char}
    (hh : l.getLast? = some c) (hc : isJsWs c = false) : trimEndL l = l := by
  have hrev : l.reverse.head? = some c := by
    rw [List.head?_reverse]; exact hh
  simp [trimEndL, dropWhile_eq_self_of_head hrev hc]

/-- The trimmed list is a prefix of the input (trailing trim only). -/
theorem trimEndL_prefix (l : List Char) : trimEndL l <+: l := by
  obtain ⟨t, ht⟩ := List.dropWhile_suffix (l := l.reverse) (p := isJsWs)
  refine ⟨t.reverse, ?_⟩
  have h2 := congrArg List.reverse ht
  simpa [trimEndL] using h2

theorem head?_of_prefix {l m : List Char} (h : l <+: m) (hne : l ≠ []) :
    m.head? = l.head? := by
  obtain ⟨t, rfl⟩ := h
  cases l with
  | nil => exact absurd rfl hne
  | cons a as => rfl

/-- Both-ends trim is idempotent. -/
theorem jsTrimL_idem (l : List Char) : jsTrimL (jsTrimL l) = jsTrimL l := by
  unfold jsTrimL
  set A := l.dropWhile isJsWs with hA
  by_cases hE : trimEndL A = []
  · rw [hE]
    simp [trimEndL]
  · have hpre : trimEndL A <+: A := trimEndL_prefix A
    have hhead : A.head? = (trimEndL A).head? := head?_of_prefix hpre hE
    have hdrop : (trimEndL A).dropWhile isJsWs = trimEndL A := by
      cases hh : (trimEndL A).head? with
      | none =>
        have : trimEndL A = [] := by
          cases hTA : trimEndL A with
          | nil => rfl
          | cons a as => rw [hTA] at hh; simp at hh
        exact absurd this hE
      | some c =>
        have hAc : A.head? = some c := by rw [hhead, hh]
        exact dropWhile_eq_self_of_head hh (dropWhile_head_false (l := l) (p := isJsWs) (by rw [← hA, hAc]))
    rw [hdrop, trimEndL_trimEndL]

/-! ### normalizePhone: facts needed for idempotence -/

theorem isJsWs_plus : isJsWs '+' = false := by decide

theorem isJsWs_of_digit {c : Char} (h : isDigitChar c = true) : isJsWs c = false := by
  simp [isDigitChar] at h
  simp [isJsWs]
  omega

theorem digitsOfL_all_digit {l : List Char} {c : Char} (h : c ∈ digitsOfL l) :
    isDigitChar c = true := (List.mem_filter.mp h).2

/-- A nonempty list starting with `'+'` and otherwise whitespace-free trims
to itself. -/
theorem jsTrimL_plus_digits {rest : List Char}
    (hrest : ∀ c ∈ rest, isJsWs c = false) :
    jsTrimL ('+' :: rest) = '+' :: rest := by
  have hall : ∀ c ∈ ('+' :: rest), isJsWs c = false := by
    intro c hc
    rcases List.mem_cons.mp hc with h | h
    · subst h; exact isJsWs_plus
    · exact hrest c h
  have hdrop : ('+' :: rest).dropWhile isJsWs = '+' :: rest :=
    dropWhile_eq_self_of_head rfl isJsWs_plus
  have hlast : ∃ c, ('+' :: rest).getLast? = some c ∧ isJsWs c = false := by
    refine ⟨('+' :: rest).getLast (by simp), List.getLast?_eq_getLast _ _, ?_⟩
    exact hall _ (List.getLast_mem _)
  obtain ⟨c, hc1, hc2⟩ := hlast
  unfold jsTrimL
  rw [hdrop, trimEndL_eq_self_of_getLast hc1 hc2]

theorem normalizePhoneL_of_trim_plus {m : List Char} (hne : m ≠ [])
    (htrim : jsTrimL m = m) (hhead : m.head? = some '+') :
    normalizePhoneL m = m := by
  simp [normalizePhoneL, hne, htrim, hhead]

theorem normalizePhoneL_fallback {m : List Char} (hne : m ≠ [])
    (htrim : jsTrimL m = m) (hhead : m.head? ≠ some '+')
    (h10 : (digitsOfL m).length ≠ 10)
    (h11 : ¬((digitsOfL m).length = 11 ∧ (digitsOfL m).head? = some '1')) :
    normalizePhoneL m = m := by
  simp [normalizePhoneL, hne, htrim, hhead, h10, h11]

theorem normalizePhoneL_idem (l : List Char) :
    normalizePhoneL (normalizePhoneL l) = normalizePhoneL l := by
  by_cases h0 : l = []
  · subst h0; rfl
  · by_cases hplus : (jsTrimL l).head? = some '+'
    · have h1 : normalizePhoneL l = jsTrimL l := by
        simp [normalizePhoneL, h0, hplus]
      rw [h1]
      have hne : jsTrimL l ≠ [] := by
        intro h; rw [h] at hplus; simp at hplus
      exact normalizePhoneL_of_trim_plus hne (jsTrimL_idem l) hplus
    · by_cases h10 : (digitsOfL (jsTrimL l)).length = 10
      · have h1 : normalizePhoneL l = '+' :: '1' :: digitsOfL (jsTrimL l) := by
          simp [normalizePhoneL, h0, hplus, h10]
        rw [h1]
        have hws : ∀ c ∈ ('1' :: digitsOfL (jsTrimL l)), isJsWs c = false := by
          intro c hc
          rcases List.mem_cons.mp hc with h | h
          · subst h; decide
          · exact isJsWs_of_digit (digitsOfL_all_digit h)
        exact normalizePhoneL_of_trim_plus (by simp) (jsTrimL_plus_digits hws) rfl
      · by_cases h11 : (digitsOfL (jsTrimL l)).length = 11 ∧ (digitsOfL (jsTrimL l)).head? = some '1'
        · have h1 : normalizePhoneL l = '+' :: digitsOfL (jsTrimL l) := by
            simp [normalizePhoneL, h0, hplus, h10, h11.1, h11.2]
          rw [h1]
          have hws : ∀ c ∈ digitsOfL (jsTrimL l), isJsWs c = false := by
            intro c hc
            exact isJsWs_of_digit (digitsOfL_all_digit hc)
          exact normalizePhoneL_of_trim_plus (by simp) (jsTrimL_plus_digits hws) rfl
        · have h1 : normalizePhoneL l = jsTrimL l := by
            simp [normalizePhoneL, h0, hplus, h10, h11]
          rw [h1]
          by_cases hne : jsTrimL l = []
          · rw [hne]; rfl
          · exact normalizePhoneL_fallback hne (jsTrimL_idem l) hplus h10 h11

/-- C5: phone normalization is idempotent: normalizing twice equals
normalizing once, for every input string. -/
theorem normalizePhone_idempotent (s : String) :
    normalizePhone (normalizePhone s) = normalizePhone s :=
  congrArg String.mk (normalizePhoneL_idem s.data)

/-- C4: the phone-normalization algorithm: empty input unchanged; a
`+`-prefixed (after trimming) input is returned trimmed; otherwise after
stripping non-digits, exactly 10 digits get a `+1` prefix, exactly 11
digits starting with `1` get a `+` prefix, and any other digit count
returns the trimmed original; with the spec's concrete examples. -/
theorem normalizePhone_algorithm (s : String) :
    (s = "" → normalizePhone s = s) ∧
    (s ≠ "" → (jsTrim s).data.head? = some '+' → normalizePhone s = jsTrim s) ∧
    (s ≠ "" → (jsTrim s).data.head? ≠ some '+' →
      ((digitsOf (jsTrim s)).length = 10 →
          normalizePhone s = "+1" ++ digitsOf (jsTrim s)) ∧
      ((digitsOf (jsTrim s)).length = 11 → (digitsOf (jsTrim s)).data.head? = some '1' →
          normalizePhone s = "+" ++ digitsOf (jsTrim s)) ∧
      ((digitsOf (jsTrim s)).length ≠ 10 →
        ¬((digitsOf (jsTrim s)).length = 11 ∧ (digitsOf (jsTrim s)).data.head? = some '1') →
          normalizePhone s = jsTrim s)) ∧
    normalizePhone "2896819206" = "+12896819206" ∧
    normalizePhone "1-289-681-9206" = "+12896819206" ∧
    normalizePhone "+1 289 681 9206" = "+1 289 681 9206" := by
  refine ⟨?_, ?_, ?_, by decide, by decide, by decide⟩
  · intro h; subst h; rfl
  · intro hs hp
    have hd : s.data ≠ [] := fun h => hs (String.ext (show s.data = "".data by rw [h]))
    have hp2 : (jsTrimL s.data).head? = some '+' := hp
    have hlist : normalizePhoneL s.data = jsTrimL s.data := by
      simp [normalizePhoneL, hd, hp2]
    exact String.ext hlist
  · intro hs hp
    have hd : s.data ≠ [] := fun h => hs (String.ext (show s.data = "".data by rw [h]))
    have hp2 : (jsTrimL s.data).head? ≠ some '+' := hp
    refine ⟨?_, ?_, ?_⟩
    · intro h10
      have h10b : (digitsOfL (jsTrimL s.data)).length = 10 := h10
      have hlist : normalizePhoneL s.data = '+' :: '1' :: digitsOfL (jsTrimL s.data) := by
        simp [normalizePhoneL, hd, hp2, h10b]
      exact String.ext hlist
    · intro h11 hh1
      have h11b : (digitsOfL (jsTrimL s.data)).length = 11 := h11
      have hh1b : (digitsOfL (jsTrimL s.data)).head? = some '1' := hh1
      have hlist : normalizePhoneL s.data = '+' :: digitsOfL (jsTrimL s.data) := by
        simp [normalizePhoneL, hd, hp2, h11b, hh1b]
      exact String.ext hlist
    · intro h10 h11
      have h10b : (digitsOfL (jsTrimL s.data)).length ≠ 10 := h10
      have h11b : ¬((digitsOfL (jsTrimL s.data)).length = 11 ∧ (digitsOfL (jsTrimL s.data)).head? = some '1') := h11
      have hlist : normalizePhoneL s.data = jsTrimL s.data := by
        simp [normalizePhoneL, hd, hp2, h10b, h11b]
      exact String.ext hlist

/-- Witness for C4: evaluates the 10-digit branch at a concrete formatted
number. -/
theorem normalizePhone_algorithm_witness :
    normalizePhone "(289) 681-9206" = "+1" ++ digitsOf (jsTrim "(289) 681-9206") :=
  ((normalizePhone_algorithm "(289) 681-9206").2.2.1 (by decide) (by decide)).1 (by decide)

/-! ### JavaScript truthiness and string replacement -/

/-- JS truthiness of a possibly-absent string (`undefined`/`null`/`""` are
falsy). -/
def truthy : Option String → Bool
  | none => false
  | some s => decide (s ≠ "")

/-- JS `a || d` where `a` is a possibly-absent string and `d` a string:
returns `a`'s value when truthy, else `d`. -/
def jsOr (o : Option String) (d : String) : String :=
  match o with
  | some s => if s = "" then d else s
  | none => d

/-- JS `a || b` on two possibly-absent strings. -/
def jsOrOpt (a b : Option String) : Option String :=
  if truthy a then a else b

/-- JS `a || null`: collapse a falsy string to `null`. -/
def jsOrNull (o : Option String) : Option String :=
  if truthy o then o else none

/-- JS `String.prototype.replace` with a *string* pattern: replace the
first occurrence of `pat` (the replacement is not rescanned). -/
def replaceFirstL (pat rep : List Char) : List Char → List Char
  | [] => if pat = [] then rep else []
  | c :: cs =>
    if pat.isPrefixOf (c :: cs) then rep ++ (c :: cs).drop pat.length
    else c :: replaceFirstL pat rep cs

/-- Fuel-indexed worker for global replacement; the fuel is an upper bound
on the number of characters consumed and is always sufficient when set to
the input length. -/
def replaceAllGo (pat rep : List Char) : Nat → List Char → List Char
  | _, [] => []
  | 0, l => l
  | fuel + 1, c :: cs =>
    if pat ≠ [] ∧ pat.isPrefixOf (c :: cs) then
      rep ++ replaceAllGo pat rep fuel ((c :: cs).drop pat.length)
    else c :: replaceAllGo pat rep fuel cs

/-- JS `String.prototype.replace` with a `/literal/g` regex: replace every
(non-overlapping, left-to-right) occurrence of `pat`. -/
def replaceAllL (pat rep l : List Char) : List Char :=
  replaceAllGo pat rep l.length l

def replaceFirst (s pat rep : String) : String := ⟨replaceFirstL pat.data rep.data s.data⟩

def replaceAll (s pat rep : String) : String := ⟨replaceAllL pat.data rep.data s.data⟩

/-- Substring occurrence test (`needle` occurs somewhere in the list). -/
def containsSubL (needle : List Char) : List Char → Bool
  | [] => needle.isPrefixOf []
  | c :: cs => needle.isPrefixOf (c :: cs) || containsSubL needle cs

/-- `sub` occurs as a contiguous substring of `s`. -/
def containsSub (s sub : String) : Bool := containsSubL sub.data s.data

theorem containsSubL_of_isPrefixOf {n h : List Char} (hp : n.isPrefixOf h = true) :
    containsSubL n h = true := by
  cases h with
  | nil => simpa [containsSubL] using hp
  | cons c cs => simp [containsSubL, hp]

theorem containsSubL_of_infix {n h : List Char} (hinf : n <:+: h) :
    containsSubL n h = true := by
  obtain ⟨pre, post, hsplit⟩ := hinf
  subst hsplit
  induction pre with
  | nil =>
    apply containsSubL_of_isPrefixOf
    exact List.isPrefixOf_iff_prefix.mpr ⟨post, by simp⟩
  | cons a as ih =>
    simp only [List.cons_append, containsSubL, Bool.or_eq_true]
    right
    simpa using ih

/-- Containment through string append: the needle placed between two other
strings is found. -/
theorem containsSub_append (a n b : String) :
    containsSub (a ++ n ++ b) n = true := by
  apply containsSubL_of_infix
  refine ⟨a.data, b.data, ?_⟩
  simp [String.data_append]

/-! ### Data model (as consumed by the handlers) -/

/-- A tenant row from the `clients` table, restricted to the fields the
notification handlers read. -/
structure Client where
  id : String
  business_name : Option String := none
  booking_link : Option String := none
  google_review_link : Option String := none
  review_sms_template : Option String := none
  custom_sms_template : Option String := none
  twilio_number : Option String := none
  forwarding_phone : Option String := none
  owner_email : Option String := none
  auto_review_enabled : Bool := false
deriving DecidableEq

/-- An outbound SMS passed to `twilioClient.messages.create`. -/
structure Sms where
  msgFrom : Option String
  msgTo : Option String
  body : String
deriving DecidableEq

/-- A row inserted into the `leads` table. -/
structure LeadRow where
  client_id : String
  name : Option String := none
  phone : Option String := none
  email : Option String := none
  message : Option String := none
  source : String
deriving DecidableEq

/-- A row of the `customer_contacts` table. -/
structure Contact where
  id : Nat
  client_id : String
  name : Option String := none
  phone : String
  email : Option String := none
  created_at : Nat := 0
  last_review_request_at : Option Nat := none
  review_request_count : Option Nat := none
deriving DecidableEq

/-! ### Template rendering -/

/-- The default lead SMS template from `api/leads.ts` lines 90–92. -/
def LEADS_DEFAULT_TEMPLATE : String :=
  "Hey \x7bname\x7d, thanks for contacting \x7bbusiness\x7d. You can book here: \x7bbooking\x7d"

/-- The `DEFAULT_REVIEW_TEMPLATE` constant of `api/review-request.ts`. -/
def DEFAULT_REVIEW_TEMPLATE : String :=
  "Hi \x7b\x7bname\x7d\x7d, thanks for choosing \x7b\x7bbusiness_name\x7d\x7d! It would mean a lot if you could leave us a quick review here: \x7b\x7breview_link\x7d\x7d"

/-- SMS body composition from `api/leads.ts` lines 94–97: single-brace
tokens, each replaced once (plain-string `replace`), with `name || ''`. -/
def renderLeadTemplate (template : String) (name : Option String)
    (bizName booking : String) : String :=
  replaceFirst
    (replaceFirst
      (replaceFirst template "\x7bname\x7d" (jsOr name ""))
      "\x7bbusiness\x7d" bizName)
    "\x7bbooking\x7d" booking

/-- SMS body composition from `api/review-request.ts` lines 84–87:
double-brace tokens replaced globally, with `name || 'there'`. -/
def renderReviewTemplate (template : String) (name : Option String)
    (bizName reviewLink : String) : String :=
  replaceAll
    (replaceAll
      (replaceAll template "\x7b\x7bname\x7d\x7d" (jsOr name "there"))
      "\x7b\x7bbusiness_name\x7d\x7d" bizName)
    "\x7b\x7breview_link\x7d\x7d" reviewLink

/-! ### Handler: POST /api/leads (`api/leads.ts`) -/

structure LeadsBody where
  clientId : Option String := none
  name : Option String := none
  phone : Option String := none
  email : Option String := none
  message : Option String := none
  source : Option String := none

structure LeadsResult where
  status : Nat
  ok : Bool
  lead : Option LeadRow := none
  smsAttempts : List Sms := []
deriving DecidableEq

/-- The POST branch of the handler in `api/leads.ts` (lines 46–113).
`clientLookup` is the result of the tenant lookup, `insertOk` whether the
lead insert succeeded, `smsOk` whether the Twilio send succeeded (its
failure is caught, so it cannot influence the result). -/
def leadsPost (defaultFrom : String) (clientLookup : Option Client)
    (insertOk smsOk : Bool) (b : LeadsBody) : LeadsResult :=
  if truthy b.clientId = false then { status := 400, ok := false }
  else
    match clientLookup with
    | none => { status := 400, ok := false }
    | some client =>
      if insertOk = false then { status := 500, ok := false }
      else
        let lead : LeadRow :=
          { client_id := jsOr b.clientId "", name := b.name, phone := b.phone,
            email := b.email, message := b.message,
            source := jsOr b.source "website_form" }
        let attempts :=
          if truthy b.phone then
            [{ msgFrom := some (jsOr client.twilio_number defaultFrom),
               msgTo := b.phone,
               body := renderLeadTemplate
                 (jsOr client.custom_sms_template LEADS_DEFAULT_TEMPLATE)
                 b.name (jsOr client.business_name "our team")
                 (jsOr client.booking_link "") }]
          else []
        { status := 201, ok := true, lead := some lead, smsAttempts := attempts }

/-! ### Handler: POST /api/reviews (`api/reviews.ts`) -/

structure ReviewsBody where
  clientId : Option String := none
  name : Option String := none
  rating : Option Int := none
  comments : Option String := none

structure ReviewRow where
  client_id : String
  name : Option String := none
  rating : Int
  comments : Option String := none
deriving DecidableEq

structure ReviewsResult where
  status : Nat
  ok : Bool
  review : Option ReviewRow := none
  googleReviewLink : Option String := none
  emailAttempted : Bool := false
deriving DecidableEq

/-- The handler of `api/reviews.ts`. `resendConfigured` models the
`resendClient` module constant being non-null (a `RESEND_API_KEY` is set);
`emailOk` models the owner-email send outcome (caught, so it cannot
influence the result). -/
def reviewsHandler (resendConfigured : Bool) (clientLookup : Option Client)
    (insertOk emailOk : Bool) (b : ReviewsBody) : ReviewsResult :=
  match b.rating, truthy b.clientId with
  | some rating, true =>
    (match clientLookup with
     | none => { status := 400, ok := false }
     | some client =>
       if insertOk = false then { status := 500, ok := false }
       else
         { status := 201, ok := true,
           review := some { client_id := jsOr b.clientId "", name := b.name,
                            rating := rating, comments := b.comments },
           googleReviewLink :=
             if rating ≥ 5 then jsOrNull client.google_review_link else none,
           emailAttempted :=
             decide (rating ≤ 4) && resendConfigured && truthy client.owner_email })
  | _, _ => { status := 400, ok := false }

/-! ### Handler: POST /api/customers (`api/customers.ts`) -/

structure CustomersBody where
  clientId : Option String := none
  name : Option String := none
  phone : Option String := none
  email : Option String := none

structure CustomersResult where
  status : Nat
  ok : Bool
  customer : Option Contact := none
  smsAttempts : List Sms := []
  db : List Contact
deriving DecidableEq

/-- The fixed auto-review SMS body of `api/customers.ts` line 77. -/
def autoReviewSmsBody (name : Option String) (bizName link : String) : String :=
  "Hey " ++ jsOr name "there" ++ ", thanks for choosing " ++ bizName ++
    "! We’d really appreciate a quick Google review: " ++ link

/-- The `customer_contacts` update issued with `.eq('id', targetId)`: set
`last_review_request_at` to the current time and `review_request_count` to
the pre-computed `newCount` on every row whose id matches. -/
def bumpContact (targetId newCount now : Nat) (c : Contact) : Contact :=
  if c.id = targetId then
    { c with last_review_request_at := some now,
             review_request_count := some newCount }
  else c

/-- The POST branch of `api/customers.ts` (lines 34–100). `newId` is the id
assigned to the inserted row and `now` the insertion timestamp; on
auto-review the SMS send and the counter update share one `try`, so a send
failure (`smsOk = false`) skips the update but not the 201 response. -/
def customersPost (defaultFrom : String) (clientLookup : Option Client)
    (insertOk smsOk : Bool) (newId now : Nat) (db : List Contact)
    (b : CustomersBody) : CustomersResult :=
  if truthy b.clientId = false ∨ truthy b.phone = false then
    { status := 400, ok := false, db := db }
  else
    match clientLookup with
    | none => { status := 400, ok := false, db := db }
    | some client =>
      if insertOk = false then { status := 500, ok := false, db := db }
      else
        let customer : Contact :=
          { id := newId, client_id := jsOr b.clientId "", name := b.name,
            phone := jsOr b.phone "", email := b.email, created_at := now }
        let db1 := db ++ [customer]
        if client.auto_review_enabled && truthy client.google_review_link then
          let sms : Sms :=
            { msgFrom := some (jsOr client.twilio_number defaultFrom),
              msgTo := b.phone,
              body := autoReviewSmsBody b.name (jsOr client.business_name "our business")
                        (client.google_review_link.getD "") }
          if smsOk then
            { status := 201, ok := true, customer := some customer,
              smsAttempts := [sms],
              db := db1.map
                (bumpContact customer.id (customer.review_request_count.getD 0 + 1) now) }
          else
            { status := 201, ok := true, customer := some customer,
              smsAttempts := [sms], db := db1 }
        else
          { status := 201, ok := true, customer := some customer,
            smsAttempts := [], db := db1 }

/-! ### Handler: POST /api/review-request (`api/review-request.ts`) -/

structure RRBody where
  clientId : Option String := none
  name : Option String := none
  phone : Option String := none

structure RRResult where
  status : Nat
  ok : Bool
  sent : Bool := false
  smsAttempt : Option Sms := none
  db : List Contact
deriving DecidableEq

/-- Keep the later-created of two candidate rows (the first seen wins ties,
matching a head-of-sorted-list pick). -/
def laterContact (acc : Option Contact) (c : Contact) : Option Contact :=
  match acc with
  | none => some c
  | some best => if best.created_at < c.created_at then some c else some best

/-- `order('created_at', descending).limit(1).maybeSingle()` over the rows
matching tenant and phone. -/
def mostRecentContact (db : List Contact) (cid phone : String) : Option Contact :=
  (db.filter (fun c => decide (c.client_id = cid ∧ c.phone = phone))).foldl
    laterContact none

/-- The handler of `api/review-request.ts` (lines 39–132). `sendOk` is the
Twilio send outcome: a failure there throws into the outer catch (500);
`lookupOk` is whether the contact lookup/update sub-operation throws (its
failure is caught and logged). -/
def reviewRequestHandler (defaultFrom : String) (clientLookup : Option Client)
    (sendOk lookupOk : Bool) (now : Nat) (db : List Contact) (b : RRBody) : RRResult :=
  if truthy b.clientId = false ∨ truthy b.phone = false then
    { status := 400, ok := false, db := db }
  else
    match clientLookup with
    | none => { status := 400, ok := false, db := db }
    | some client =>
      if truthy client.google_review_link = false then
        { status := 400, ok := false, db := db }
      else
        let sms : Sms :=
          { msgFrom := some (jsOr client.twilio_number defaultFrom),
            msgTo := some (normalizePhone (jsOr b.phone "")),
            body := renderReviewTemplate
              (jsOr client.review_sms_template DEFAULT_REVIEW_TEMPLATE)
              b.name (jsOr client.business_name "our business")
              (client.google_review_link.getD "") }
        if sendOk = false then
          { status := 500, ok := false, smsAttempt := some sms, db := db }
        else
          let db2 :=
            if lookupOk = false then db
            else
              match mostRecentContact db (jsOr b.clientId "") (jsOr b.phone "") with
              | none => db
              | some existing =>
                db.map (bumpContact existing.id (existing.review_request_count.getD 0 + 1) now)
          { status := 200, ok := true, sent := true, smsAttempt := some sms, db := db2 }

/-! ### Handler: POST /api/twilio-call-status (strict variant, `api/admin/admin.ts` part) -/

structure CallStatusBody where
  DialCallStatus : Option String := none
  CallStatus : Option String := none
  From : Option String := none
  Caller : Option String := none
  To : Option String := none

structure CallStatusResult where
  status : Nat
  bodyText : String
  leadAttempt : Option LeadRow := none
  smsAttempt : Option Sms := none
deriving DecidableEq

/-- The dial statuses the strict variant acts on. -/
def missedStatuses : List String := ["no-answer", "busy", "failed"]

/-- `body.DialCallStatus || body.CallStatus`. -/
def dialStatusOf (b : CallStatusBody) : Option String :=
  jsOrOpt b.DialCallStatus b.CallStatus

/-- Negation of the guard
`!dialStatus || !['no-answer','busy','failed'].includes(dialStatus)`. -/
def isMissedCall (b : CallStatusBody) : Bool :=
  truthy (dialStatusOf b) && decide ((dialStatusOf b).getD "" ∈ missedStatuses)

/-- Missed-call SMS body (strict handler, lines 262–271): booking link when
configured (`bookingLink` truthy), generic fallback otherwise. -/
def missedCallSmsBody (client : Client) : String :=
  "Sorry we missed your call at " ++ jsOr client.business_name "our team" ++ "." ++
    (if jsOr client.booking_link "" ≠ "" then
      " You can book a time here: " ++ jsOr client.booking_link ""
     else " Reply to this text and we\x27ll get back to you soon.")

/-- The strict `twilio-call-status` handler: acts only on dial status
`no-answer`/`busy`/`failed`, then records a missed-call lead and texts the
caller (both attempts individually caught). -/
def callStatusStrict (clientLookup : Option Client) (b : CallStatusBody) :
    CallStatusResult :=
  if isMissedCall b = false then { status := 200, bodyText := "No action needed" }
  else
    match clientLookup with
    | none => { status := 200, bodyText := "Client not found" }
    | some client =>
      { status := 200, bodyText := "OK",
        leadAttempt := some { client_id := client.id, name := none,
                              phone := jsOrOpt b.From b.Caller, email := none,
                              message := some "Missed call", source := "missed_call" },
        smsAttempt := some { msgFrom := client.twilio_number,
                             msgTo := jsOrOpt b.From b.Caller,
                             body := missedCallSmsBody client } }

/-! ### Handler: POST /api/twilio-voice (`api/twilio-voice.ts`) -/

structure VoiceResult where
  status : Nat
  contentType : Option String := none
  body : String
deriving DecidableEq

def hangupTwiml : String := "<Response><Hangup/></Response>"

def dialTwiml (forwardingPhone : String) : String :=
  "<Response>\n  <Dial action=\"https://sitrixx-website-backend.vercel.app/api/twilio-call-status\" method=\"POST\">\n    "
    ++ forwardingPhone ++ "\n  </Dial>\n</Response>"

/-- The POST handler of `api/twilio-voice.ts`: unresolved tenant or missing
forwarding phone yield HTTP 200 with a TwiML hangup, otherwise a Dial. -/
def twilioVoice (clientLookup : Option Client) : VoiceResult :=
  match clientLookup with
  | none => { status := 200, contentType := some "text/xml", body := hangupTwiml }
  | some client =>
    if truthy client.forwarding_phone = false then
      { status := 200, contentType := some "text/xml", body := hangupTwiml }
    else
      { status := 200, contentType := some "text/xml",
        body := dialTwiml (jsOr client.forwarding_phone "") }

/-! ### Claim theorems -/

/-- C9: voice-webhook graceful degradation: whenever no tenant matches the
called number, or the matched tenant has no forwarding phone, the handler
responds HTTP 200 with the TwiML hangup document (content type text/xml),
never an error status or JSON body. -/
theorem twilioVoice_graceful (clientLookup : Option Client)
    (h : clientLookup = none ∨
         ∃ c, clientLookup = some c ∧ truthy c.forwarding_phone = false) :
    (twilioVoice clientLookup).status = 200 ∧
    (twilioVoice clientLookup).body = hangupTwiml ∧
    (twilioVoice clientLookup).contentType = some "text/xml" := by
  rcases h with h | ⟨c, hc, hf⟩
  · subst h; exact ⟨rfl, rfl, rfl⟩
  · subst hc
    simp [twilioVoice, hf]

/-- Witness for C9 at the unresolved-tenant input. -/
theorem twilioVoice_graceful_witness :
    (twilioVoice none).status = 200 ∧
    (twilioVoice none).body = hangupTwiml ∧
    (twilioVoice none).contentType = some "text/xml" :=
  twilioVoice_graceful none (Or.inl rfl)

/-- C6 counterexample: rendering "Hi {{name}}" with no name gives
"Hi there" under the review-request composition (and "Hi {}" under the
leads composition) — not the "Hi " the claim requires. -/
theorem render_missing_name_counterexample :
    renderReviewTemplate "Hi \x7b\x7bname\x7d\x7d" none "our business" "L" = "Hi there" ∧
    ("Hi there" : String) ≠ "Hi " ∧
    renderLeadTemplate "Hi \x7b\x7bname\x7d\x7d" none "our team" "" = "Hi \x7b\x7d" ∧
    ("Hi \x7b\x7d" : String) ≠ "Hi " := by decide

/-- C6 (amended): the leads composition (single-brace tokens) substitutes
the empty string for a missing name and for a missing booking link, so
"Hi {name}" renders to "Hi "; the review-request composition substitutes
"there" for a missing name, so "Hi {{name}}" renders to "Hi there". -/
theorem render_missing_name :
    renderLeadTemplate "Hi \x7bname\x7d" none "our team" "" = "Hi " ∧
    renderLeadTemplate "Book here: \x7bbooking\x7d" (some "Jo") "our team" "" = "Book here: " ∧
    renderReviewTemplate "Hi \x7b\x7bname\x7d\x7d" none "our business" "L" = "Hi there" := by
  decide

/-- The tenant of the C2 end-to-end scenario. -/
def acmeClient : Client :=
  { id := "acme", booking_link := some "https://acme.example/book" }

/-- The lead POST body of the C2 end-to-end scenario. -/
def c2Body : LeadsBody :=
  { clientId := some "acme", name := some "Jo", phone := some "4165551234" }

/-- The C2 scenario run (tenant resolved, insert and send succeed). -/
def c2Run : LeadsResult := leadsPost "+15550000000" (some acmeClient) true true c2Body

/-- C2 counterexample: the single SMS of the end-to-end lead scenario is
addressed to the number exactly as submitted, "4165551234" — `leads.ts`
never calls `normalizePhone` — not to the normalized "+14165551234". -/
theorem leads_e2e_counterexample :
    c2Run.smsAttempts.map Sms.msgTo = [some "4165551234"] ∧
    (some "4165551234" : Option String) ≠ some "+14165551234" ∧
    normalizePhone "4165551234" = "+14165551234" := by decide

/-- C2 (amended): the end-to-end scenario creates the lead row with source
"website_form" and attempts exactly one SMS, addressed to the submitted
(unnormalized) number, whose body contains "Jo" and the booking link. -/
theorem leads_e2e :
    c2Run.status = 201 ∧
    c2Run.lead.map LeadRow.source = some "website_form" ∧
    c2Run.smsAttempts.length = 1 ∧
    c2Run.smsAttempts.map Sms.msgTo = [some "4165551234"] ∧
    (∀ m ∈ c2Run.smsAttempts,
      containsSub m.body "Jo" = true ∧
      containsSub m.body "https://acme.example/book" = true) := by decide

/-- The tenant used by the C1 counterexample: review link and owner email
both configured. -/
def c1Client : Client :=
  { id := "t1", google_review_link := some "https://g.example/review",
    owner_email := some "owner@example.com" }

/-- C1 counterexample: a rating of 6 also carries the tenant's non-null
review link (so 5 is not the only such value), and with rating 4 and an
owner email configured no email is attempted when the email client is not
configured. -/
theorem reviews_rating5_only_counterexample :
    ((reviewsHandler true (some c1Client) true true
        { clientId := some "t1", rating := some 6 }).googleReviewLink
      = some "https://g.example/review" ∧ (6 : Int) ≠ 5) ∧
    (reviewsHandler false (some c1Client) true true
        { clientId := some "t1", rating := some 4 }).emailAttempted = false := by
  decide

/-- C1 (amended): with a resolved tenant and a successful insert: if
rating ≤ 4, the email client is configured and the tenant has an owner
email, an owner-feedback email is attempted and the response's review link
is null; and the response carries the tenant's configured link exactly for
ratings ≥ 5 (not only exactly 5). -/
theorem reviews_routing (resendConfigured insertOk emailOk : Bool) (client : Client)
    (b : ReviewsBody) (rating : Int)
    (hc : truthy b.clientId = true) (hr : b.rating = some rating)
    (hins : insertOk = true) :
    (rating ≤ 4 → resendConfigured = true → truthy client.owner_email = true →
      (reviewsHandler resendConfigured (some client) insertOk emailOk b).emailAttempted = true ∧
      (reviewsHandler resendConfigured (some client) insertOk emailOk b).googleReviewLink = none) ∧
    (reviewsHandler resendConfigured (some client) insertOk emailOk b).googleReviewLink
      = (if rating ≥ 5 then jsOrNull client.google_review_link else none) := by
  subst hins
  constructor
  · intro h4 hres howner
    have h5 : ¬ (rating ≥ 5) := by omega
    simp [reviewsHandler, hr, hc, h4, hres, howner, h5]
  · simp [reviewsHandler, hr, hc]

/-- Witness for C1's amended theorem: rating 4 with everything configured
attempts the email and returns a null link. -/
theorem reviews_routing_witness :
    (reviewsHandler true (some c1Client) true true
       { clientId := some "t1", rating := some 4 }).emailAttempted = true ∧
    (reviewsHandler true (some c1Client) true true
       { clientId := some "t1", rating := some 4 }).googleReviewLink = none :=
  (reviews_routing true true true c1Client
      { clientId := some "t1", rating := some 4 } 4
      (by decide) rfl rfl).1 (by decide) rfl (by decide)

/-- C7: outbound delivery failures are non-fatal: with the tenant resolved
and the primary insert succeeded, the lead, customer and review handlers
each return 201 with the created record even when the subsequent SMS/email
send fails (failure flag `false`). -/
theorem sendFailure_nonfatal (defaultFrom : String) (client : Client)
    (lb : LeadsBody) (cb : CustomersBody) (rb : ReviewsBody)
    (resendConfigured : Bool) (newId now : Nat) (db : List Contact) (rating : Int)
    (hl : truthy lb.clientId = true)
    (hc1 : truthy cb.clientId = true) (hc2 : truthy cb.phone = true)
    (hr1 : truthy rb.clientId = true) (hr2 : rb.rating = some rating) :
    ((leadsPost defaultFrom (some client) true false lb).status = 201 ∧
     (leadsPost defaultFrom (some client) true false lb).ok = true ∧
     (leadsPost defaultFrom (some client) true false lb).lead =
       some { client_id := jsOr lb.clientId "", name := lb.name, phone := lb.phone,
              email := lb.email, message := lb.message,
              source := jsOr lb.source "website_form" }) ∧
    ((customersPost defaultFrom (some client) true false newId now db cb).status = 201 ∧
     (customersPost defaultFrom (some client) true false newId now db cb).ok = true ∧
     (customersPost defaultFrom (some client) true false newId now db cb).customer =
       some { id := newId, client_id := jsOr cb.clientId "", name := cb.name,
              phone := jsOr cb.phone "", email := cb.email, created_at := now }) ∧
    ((reviewsHandler resendConfigured (some client) true false rb).status = 201 ∧
     (reviewsHandler resendConfigured (some client) true false rb).ok = true ∧
     (reviewsHandler resendConfigured (some client) true false rb).review =
       some { client_id := jsOr rb.clientId "", name := rb.name, rating := rating,
              comments := rb.comments }) := by
  refine ⟨?_, ?_, ?_⟩
  · simp [leadsPost, hl]
  · have hv : ¬ (truthy cb.clientId = false ∨ truthy cb.phone = false) := by
      simp [hc1, hc2]
    by_cases har : client.auto_review_enabled && truthy client.google_review_link
    · simp [customersPost, hv, har]
    · simp [customersPost, hv, har]
  · simp [reviewsHandler, hr1, hr2]

/-- Witness for C7 at a concrete tenant and bodies. -/
theorem sendFailure_nonfatal_witness :
    (leadsPost "+15550000000" (some acmeClient) true false
       { clientId := some "acme", phone := some "4165551234" }).status = 201 ∧
    (leadsPost "+15550000000" (some acmeClient) true false
       { clientId := some "acme", phone := some "4165551234" }).ok = true ∧
    (leadsPost "+15550000000" (some acmeClient) true false
       { clientId := some "acme", phone := some "4165551234" }).lead =
      some { client_id := jsOr (some "acme") "", name := none, phone := some "4165551234",
             email := none, message := none, source := jsOr none "website_form" } :=
  (sendFailure_nonfatal "+15550000000" acmeClient
    { clientId := some "acme", phone := some "4165551234" }
    { clientId := some "acme", phone := some "4165551234" }
    { clientId := some "acme", rating := some 5 }
    false 1 0 [] 5
    (by decide) (by decide) (by decide) (by decide) rfl).1

/-! ### C3: missed-call routing -/

theorem jsOr_ne_empty_of_truthy {o : Option String} (h : truthy o = true) :
    jsOr o "" ≠ "" := by
  cases o with
  | none => simp [truthy] at h
  | some s =>
    simp [truthy] at h
    simp [jsOr, h]

theorem jsOr_empty_of_falsy {o : Option String} (h : truthy o = false) :
    jsOr o "" = "" := by
  cases o with
  | none => rfl
  | some s =>
    simp [truthy] at h
    simp [jsOr, h]

theorem missedCallSmsBody_contains_link {client : Client}
    (h : truthy client.booking_link = true) :
    containsSub (missedCallSmsBody client) (jsOr client.booking_link "") = true := by
  have hne : jsOr client.booking_link "" ≠ "" := jsOr_ne_empty_of_truthy h
  unfold missedCallSmsBody containsSub
  rw [if_pos hne]
  apply containsSubL_of_infix
  refine ⟨("Sorry we missed your call at " ++ jsOr client.business_name "our team"
            ++ "." ++ " You can book a time here: ").data, [], ?_⟩
  simp [String.data_append, List.append_assoc]

theorem missedCallSmsBody_contains_fallback {client : Client}
    (h : truthy client.booking_link = false) :
    containsSub (missedCallSmsBody client)
      "Reply to this text and we\x27ll get back to you soon." = true := by
  have he : jsOr client.booking_link "" = "" := jsOr_empty_of_falsy h
  unfold missedCallSmsBody containsSub
  rw [if_neg (by simp [he])]
  apply containsSubL_of_infix
  refine ⟨("Sorry we missed your call at " ++ jsOr client.business_name "our team"
            ++ "." ++ " ").data, [], ?_⟩
  simp [String.data_append, List.append_assoc]

/-- The missed-call counterexample input: dial status no-answer, caller and
called number both present. -/
def c3Body : CallStatusBody :=
  { DialCallStatus := some "no-answer", From := some "+14165550000",
    To := some "+15550001111" }

/-- C3 counterexample: a no-answer callback whose called number resolves to
no tenant records no lead and attempts no SMS, even though the dial status
is in {no-answer, busy, failed} — so "exactly when the status is in the
set" fails without tenant resolution. -/
theorem callStatus_strict_counterexample :
    isMissedCall c3Body = true ∧
    (callStatusStrict none c3Body).leadAttempt = none ∧
    (callStatusStrict none c3Body).smsAttempt = none := by decide

/-- C3 (amended): a missed-call lead insert and a caller SMS are attempted
exactly when the dial status is one of no-answer/busy/failed AND the called
number resolves to a tenant; and the SMS body contains the booking link
when one is configured, else the generic fallback phrase. -/
theorem callStatus_strict_routing (clientLookup : Option Client) (b : CallStatusBody) :
    (((callStatusStrict clientLookup b).leadAttempt.isSome = true ∧
      (callStatusStrict clientLookup b).smsAttempt.isSome = true) ↔
      (isMissedCall b = true ∧ clientLookup.isSome = true)) ∧
    (∀ client s, clientLookup = some client →
      (callStatusStrict clientLookup b).smsAttempt = some s →
      (truthy client.booking_link = true →
        containsSub s.body (jsOr client.booking_link "") = true) ∧
      (truthy client.booking_link = false →
        containsSub s.body "Reply to this text and we\x27ll get back to you soon." = true)) := by
  constructor
  · by_cases hm : isMissedCall b = true
    · cases clientLookup with
      | none => simp [callStatusStrict, hm]
      | some client => simp [callStatusStrict, hm]
    · have hm2 : isMissedCall b = false := by simpa using hm
      simp [callStatusStrict, hm2]
  · intro client s hlk hsms
    subst hlk
    by_cases hm : isMissedCall b = true
    · have hsms2 : some { msgFrom := client.twilio_number,
                          msgTo := jsOrOpt b.From b.Caller,
                          body := missedCallSmsBody client } = some s := by
        rw [← hsms]
        simp [callStatusStrict, hm]
      have hs : s = { msgFrom := client.twilio_number,
                      msgTo := jsOrOpt b.From b.Caller,
                      body := missedCallSmsBody client } :=
        (Option.some.inj hsms2).symm
      subst hs
      exact ⟨fun ht => missedCallSmsBody_contains_link ht,
             fun hf => missedCallSmsBody_contains_fallback hf⟩
    · have hm2 : isMissedCall b = false := by simpa using hm
      simp [callStatusStrict, hm2] at hsms

/-- The tenant of the C3 witness, with a booking link configured. -/
def c3Client : Client :=
  { id := "biz", booking_link := some "https://biz.example/book",
    twilio_number := some "+15550001111" }

/-- Witness for C3's amended theorem: a resolved no-answer callback does
record a lead and attempt an SMS. -/
theorem callStatus_strict_routing_witness :
    (callStatusStrict (some c3Client) c3Body).leadAttempt.isSome = true ∧
    (callStatusStrict (some c3Client) c3Body).smsAttempt.isSome = true :=
  (callStatus_strict_routing (some c3Client) c3Body).1.mpr (by decide)

/-! ### C8: counter invariant -/

theorem foldl_laterContact_mem {l : List Contact} {acc : Option Contact} {c : Contact}
    (h : l.foldl laterContact acc = some c) : c ∈ l ∨ acc = some c := by
  induction l generalizing acc with
  | nil => exact Or.inr h
  | cons a as ih =>
    rw [List.foldl_cons] at h
    rcases ih h with h2 | h2
    · exact Or.inl (List.mem_cons_of_mem _ h2)
    · cases acc with
      | none =>
        have hac : a = c := by simpa [laterContact] using h2
        exact Or.inl (by rw [← hac]; exact List.mem_cons_self a as)
      | some best =>
        by_cases hlt : best.created_at < a.created_at
        · have hac : a = c := by simpa [laterContact, hlt] using h2
          exact Or.inl (by rw [← hac]; exact List.mem_cons_self a as)
        · have hbc : best = c := by simpa [laterContact, hlt] using h2
          exact Or.inr (by rw [hbc])

theorem mostRecentContact_mem {db : List Contact} {cid ph : String} {c : Contact}
    (h : mostRecentContact db cid ph = some c) : c ∈ db := by
  unfold mostRecentContact at h
  rcases foldl_laterContact_mem h with h2 | h2
  · exact List.mem_of_mem_filter h2
  · exact Option.noConfusion h2

theorem bumpContact_id (targetId newCount now : Nat) (c : Contact) :
    (bumpContact targetId newCount now c).id = c.id := by
  unfold bumpContact
  split <;> rfl

/-- C8: the review-request and customer handlers never decrease any
existing contact's `review_request_count` (missing read as 0); after a
successful review-request send with a working lookup, every row carrying
the id of the most recent matching contact gets count exactly incremented
by one and its `last_review_request_at` set; and a lookup/update failure
leaves the table untouched while the handler still reports success.
`huniq` is the primary-key property of the contact table, `hfresh` the
freshness of the id assigned to the customer insert. -/
theorem review_request_counter_invariant
    (defaultFrom : String) (client : Client) (sendOk lookupOk : Bool)
    (now : Nat) (db : List Contact) (b : RRBody)
    (defaultFrom2 : String) (client2 : Client) (insertOk2 smsOk2 : Bool)
    (newId now2 : Nat) (db2 : List Contact) (cb : CustomersBody)
    (huniq : ∀ c1 ∈ db, ∀ c2 ∈ db, c1.id = c2.id → c1 = c2)
    (hfresh : ∀ c ∈ db2, c.id ≠ newId) :
    (∀ c ∈ db,
      ∃ c2 ∈ (reviewRequestHandler defaultFrom (some client) sendOk lookupOk now db b).db,
        c2.id = c.id ∧
        c.review_request_count.getD 0 ≤ c2.review_request_count.getD 0) ∧
    (∀ c ∈ db2,
      ∃ c2 ∈ (customersPost defaultFrom2 (some client2) insertOk2 smsOk2 newId now2 db2 cb).db,
        c2.id = c.id ∧
        c.review_request_count.getD 0 ≤ c2.review_request_count.getD 0) ∧
    (∀ existing, sendOk = true → lookupOk = true →
      truthy b.clientId = true → truthy b.phone = true →
      truthy client.google_review_link = true →
      mostRecentContact db (jsOr b.clientId "") (jsOr b.phone "") = some existing →
      ∀ c2 ∈ (reviewRequestHandler defaultFrom (some client) sendOk lookupOk now db b).db,
        c2.id = existing.id →
        c2.review_request_count = some (existing.review_request_count.getD 0 + 1) ∧
        c2.last_review_request_at = some now) ∧
    (sendOk = true → lookupOk = false →
      truthy b.clientId = true → truthy b.phone = true →
      truthy client.google_review_link = true →
      (reviewRequestHandler defaultFrom (some client) sendOk lookupOk now db b).db = db ∧
      (reviewRequestHandler defaultFrom (some client) sendOk lookupOk now db b).status = 200 ∧
      (reviewRequestHandler defaultFrom (some client) sendOk lookupOk now db b).ok = true) := by
  refine ⟨?_, ?_, ?_, ?_⟩
  · -- review-request monotonicity
    intro c hc
    by_cases hv : truthy b.clientId = false ∨ truthy b.phone = false
    · refine ⟨c, ?_, rfl, le_refl _⟩
      simp only [reviewRequestHandler, if_pos hv]
      exact hc
    · by_cases hl : truthy client.google_review_link = false
      · refine ⟨c, ?_, rfl, le_refl _⟩
        simp only [reviewRequestHandler, if_neg hv]
        simp only [if_pos hl]
        exact hc
      · by_cases hs : sendOk = false
        · refine ⟨c, ?_, rfl, le_refl _⟩
          simp only [reviewRequestHandler, if_neg hv, if_neg hl, if_pos hs]
          exact hc
        · by_cases hlo : lookupOk = false
          · refine ⟨c, ?_, rfl, le_refl _⟩
            simp only [reviewRequestHandler, if_neg hv, if_neg hl, if_neg hs]
            simp only [if_pos hlo]
            exact hc
          · cases hmr : mostRecentContact db (jsOr b.clientId "") (jsOr b.phone "") with
            | none =>
              refine ⟨c, ?_, rfl, le_refl _⟩
              simp only [reviewRequestHandler, if_neg hv, if_neg hl, if_neg hs, if_neg hlo, hmr]
              exact hc
            | some existing =>
              have hdb : (reviewRequestHandler defaultFrom (some client) sendOk lookupOk now db b).db
                  = db.map (bumpContact existing.id (existing.review_request_count.getD 0 + 1) now) := by
                simp only [reviewRequestHandler, if_neg hv, if_neg hl, if_neg hs, if_neg hlo, hmr]
              refine ⟨bumpContact existing.id (existing.review_request_count.getD 0 + 1) now c,
                ?_, bumpContact_id _ _ _ c, ?_⟩
              · rw [hdb]
                exact List.mem_map_of_mem _ hc
              · by_cases hid : c.id = existing.id
                · have hce : c = existing :=
                    huniq c hc existing (mostRecentContact_mem hmr) hid
                  unfold bumpContact
                  rw [if_pos hid, ← hce]
                  simp
                · unfold bumpContact
                  rw [if_neg hid]
  · -- customers monotonicity
    intro c hc
    by_cases hv : truthy cb.clientId = false ∨ truthy cb.phone = false
    · refine ⟨c, ?_, rfl, le_refl _⟩
      simp only [customersPost, if_pos hv]
      exact hc
    · by_cases hins : insertOk2 = false
      · refine ⟨c, ?_, rfl, le_refl _⟩
        simp only [customersPost, if_neg hv, if_pos hins]
        exact hc
      · by_cases har : client2.auto_review_enabled && truthy client2.google_review_link
        · by_cases hsms : smsOk2
          · have hcid : c.id ≠ newId := hfresh c hc
            refine ⟨c, ?_, rfl, le_refl _⟩
            have hbump : bumpContact newId 1 now2 c = c := by
              unfold bumpContact
              rw [if_neg hcid]
            simp only [customersPost, if_neg hv, if_neg hins, if_pos har, if_pos hsms]
            rw [show (1 : Nat) = (none : Option Nat).getD 0 + 1 from rfl] at hbump
            refine List.mem_map.mpr ⟨c, List.mem_append_left _ hc, hbump⟩
          · refine ⟨c, ?_, rfl, le_refl _⟩
            simp only [customersPost, if_neg hv, if_neg hins, if_pos har, if_neg hsms]
            exact List.mem_append_left _ hc
        · refine ⟨c, ?_, rfl, le_refl _⟩
          simp only [customersPost, if_neg hv, if_neg hins, if_neg har]
          exact List.mem_append_left _ hc
  · -- exact increment on the most recent matching row
    intro existing hsend hlook hb1 hb2 hlink hmr c2 hc2 hid
    have hv : ¬(truthy b.clientId = false ∨ truthy b.phone = false) := by
      simp [hb1, hb2]
    have hl : ¬(truthy client.google_review_link = false) := by simp [hlink]
    have hs : ¬(sendOk = false) := by simp [hsend]
    have hlo : ¬(lookupOk = false) := by simp [hlook]
    have hdb : (reviewRequestHandler defaultFrom (some client) sendOk lookupOk now db b).db
        = db.map (bumpContact existing.id (existing.review_request_count.getD 0 + 1) now) := by
      simp only [reviewRequestHandler, if_neg hv, if_neg hl, if_neg hs, if_neg hlo, hmr]
    rw [hdb] at hc2
    obtain ⟨c, hcmem, hcb⟩ := List.mem_map.mp hc2
    have hcid : c.id = existing.id := by
      rw [← hid, ← hcb]
      exact (bumpContact_id _ _ _ c).symm
    rw [← hcb]
    unfold bumpContact
    rw [if_pos hcid]
    exact ⟨rfl, rfl⟩
  · -- lookup failure swallowed
    intro hsend hlook hb1 hb2 hlink
    have hv : ¬(truthy b.clientId = false ∨ truthy b.phone = false) := by
      simp [hb1, hb2]
    have hl : ¬(truthy client.google_review_link = false) := by simp [hlink]
    have hs : ¬(sendOk = false) := by simp [hsend]
    refine ⟨?_, ?_, ?_⟩ <;>
      simp [reviewRequestHandler, hv, hl, hs, hlook]

/-- The tenant used by the C8/C10 witnesses: review link configured. -/
def w8Client : Client :=
  { id := "t1", google_review_link := some "https://g.example/r" }

/-- A pre-existing contact row matching the witness request. -/
def w8Row : Contact :=
  { id := 1, client_id := "t1", phone := "289 681 9206", created_at := 5 }

/-- The witness review-request body (same tenant and phone as `w8Row`). -/
def w8Body : RRBody := { clientId := some "t1", phone := some "289 681 9206" }

/-- `w8Row` after the counter bump at time 7. -/
def w8Bumped : Contact :=
  { id := 1, client_id := "t1", phone := "289 681 9206", created_at := 5,
    last_review_request_at := some 7, review_request_count := some 1 }

/-- Witness for C8: on the one-row table the bumped row carries count
incremented from missing (0) to 1 and the new timestamp. -/
theorem review_request_counter_invariant_witness :
    w8Bumped.review_request_count = some (w8Row.review_request_count.getD 0 + 1) ∧
    w8Bumped.last_review_request_at = some 7 :=
  (review_request_counter_invariant "+15550000000" w8Client true true 7 [w8Row] w8Body
      "+15550000000" w8Client true true 2 0 [w8Row] {} (by decide) (by decide)).2.2.1
    w8Row rfl rfl (by decide) (by decide) (by decide) (by decide)
    w8Bumped (by decide) (by decide)

/-- C10: in the manual review-request handler a send failure is fatal: the
response is HTTP 500 with ok = false and the contact table is untouched;
the table can change only on invocations whose send succeeded; by contrast
the lead handler still returns 201 when its send fails. -/
theorem review_request_send_failure (defaultFrom : String)
    (lookupOk : Bool) (now : Nat) (db : List Contact) (b : RRBody) (client : Client)
    (hc : truthy b.clientId = true) (hp : truthy b.phone = true)
    (hlink : truthy client.google_review_link = true) :
    ((reviewRequestHandler defaultFrom (some client) false lookupOk now db b).status = 500 ∧
     (reviewRequestHandler defaultFrom (some client) false lookupOk now db b).ok = false ∧
     (reviewRequestHandler defaultFrom (some client) false lookupOk now db b).db = db) ∧
    (∀ sendOk : Bool,
      (reviewRequestHandler defaultFrom (some client) sendOk lookupOk now db b).db ≠ db →
      sendOk = true) ∧
    (∀ lb : LeadsBody, truthy lb.clientId = true →
      (leadsPost defaultFrom (some client) true false lb).status = 201 ∧
      (leadsPost defaultFrom (some client) true false lb).ok = true) := by
  have hv : ¬(truthy b.clientId = false ∨ truthy b.phone = false) := by
    simp [hc, hp]
  refine ⟨?_, ?_, ?_⟩
  · refine ⟨?_, ?_, ?_⟩ <;> simp [reviewRequestHandler, hv, hlink]
  · intro sendOk hne
    cases sendOk with
    | true => rfl
    | false => exact absurd (by simp [reviewRequestHandler, hv, hlink]) hne
  · intro lb hlb
    constructor <;> simp [leadsPost, hlb]

/-- Witness for C10: a concrete failed send yields 500, ok false, and the
untouched one-row table. -/
theorem review_request_send_failure_witness :
    (reviewRequestHandler "+15550000000" (some w8Client) false true 7 [w8Row] w8Body).status = 500 ∧
    (reviewRequestHandler "+15550000000" (some w8Client) false true 7 [w8Row] w8Body).ok = false ∧
    (reviewRequestHandler "+15550000000" (some w8Client) false true 7 [w8Row] w8Body).db = [w8Row] :=
  (review_request_send_failure "+15550000000" true 7 [w8Row] w8Body w8Client
    (by decide) (by decide) (by decide)).1
